import Mathlib

/-!
Shallow embedding of the kivy-garden NavigationDrawer widget
(`navigationdrawer.py`).  Geometry and progress values are modelled as
rationals; the Kivy property/observer machinery is modelled by explicit
state-passing functions that fold each property assignment together with
the observer that Kivy would dispatch for it (observers fire only when the
stored value actually changes, which is Kivy's dispatch rule).
-/

namespace NavDrawer

/-- The `state` OptionProperty of the drawer: one of the tokens
`open` / `closed`. -/
inductive DrawerState where
| Open : DrawerState
| Closed : DrawerState
deriving DecidableEq

/-- A running Kivy `Animation` registered on the drawer, as created by
`anim_to_state`: it interpolates `_anim_progress` toward `target` over
`duration` seconds.  Kivy keeps every started animation instance alive
until it completes or `Animation.cancel_all` is called on the widget. -/
structure Anim where
target : ℚ
duration : ℚ
deriving DecidableEq

/-- The drawer's bookkeeping for the active touch: `self._touch` stores the
grabbed touch object (identified here by its uid) and `touch.ud` carries the
`type` entry written at touch-down (`touch.ud['type'] = self.state`). -/
structure GestureSession where
touchId : Nat
initState : DrawerState
deriving DecidableEq

/-- A Kivy touch event: current position `(x, y)`, origin position
`(ox, oy)` recorded at touch-down, and the touch's stable identity. -/
structure Touch where
x : ℚ
y : ℚ
ox : ℚ
oy : ℚ
uid : Nat
deriving DecidableEq

/-- The NavigationDrawer widget state: its geometry, the configuration
properties declared on the class, the internal `_anim_progress` /
`_panel_init_x` / `_touch` fields, the `state` property, and the set of
Kivy animations currently registered on the widget. -/
structure NavigationDrawer where
x : ℚ
y : ℚ
width : ℚ
height : ℚ
side_panel_width : ℚ
touch_accept_width : ℚ
min_dist_to_open : ℚ
anim_time : ℚ
_main_panel_final_offset : ℚ
_anim_progress : ℚ
_panel_init_x : ℚ
state : DrawerState
_touch : Option GestureSession
runningAnims : List Anim
deriving DecidableEq

/-- The main panel's current x, per the kv rule
`x: root.x + root._anim_progress*root.side_panel_width*root._main_panel_final_offset`. -/
def main_panel_x (d : NavigationDrawer) : ℚ :=
  d.x + d._anim_progress * d.side_panel_width * d._main_panel_final_offset

/-- The main panel's width, per the kv rule `size: root.size`. -/
def main_panel_width (d : NavigationDrawer) : ℚ := d.width

/-- Kivy `Widget.collide_point`: the point lies within the widget's own
bounding box. -/
def collide_point (d : NavigationDrawer) (px py : ℚ) : Prop :=
  d.x ≤ px ∧ px ≤ d.x + d.width ∧ d.y ≤ py ∧ py ≤ d.y + d.height

instance (d : NavigationDrawer) (px py : ℚ) : Decidable (collide_point d px py) := by
  unfold collide_point
  infer_instance

/-- The `on_state` observer (fires when the `state` property changes):
`Animation.cancel_all(self)` then jump `_anim_progress` to 1 / 0.  The
nested `_anim_progress` dispatch is a no-op here: the stored state already
equals the value `on__anim_progress` would re-assign, so Kivy dispatches
nothing further. -/
def on_state_handler (d : NavigationDrawer) : NavigationDrawer :=
  { d with runningAnims := [],
           _anim_progress := if d.state = DrawerState.Open then 1 else 0 }

/-- Assignment to the `state` OptionProperty: Kivy dispatches `on_state`
only when the stored value actually changes. -/
def set_state_prop (d : NavigationDrawer) (s : DrawerState) : NavigationDrawer :=
  if d.state = s then d else on_state_handler { d with state := s }

/-- The clamping performed by the first two branches of
`on__anim_progress`: a value above 1 is re-assigned as 1, a value below 0
as 0. -/
def clamp_progress (v : ℚ) : ℚ :=
  if v > 1 then 1 else if v < 0 then 0 else v

/-- Assignment to the `_anim_progress` NumericProperty together with its
`on__anim_progress` observer (Kivy dispatches the observer only when the
stored value changes): the observer first clamps an out-of-range value by
re-assigning the property, then sets `state` to `Open` when the clamped
value is ≥ 1 and to `Closed` when it is ≤ 0 (the comparison is exact:
there is no epsilon in the observer). -/
def set_anim_progress (d : NavigationDrawer) (v : ℚ) : NavigationDrawer :=
  if v = d._anim_progress then d
  else if clamp_progress v ≥ 1 then
    set_state_prop { d with _anim_progress := clamp_progress v } DrawerState.Open
  else if clamp_progress v ≤ 0 then
    set_state_prop { d with _anim_progress := clamp_progress v } DrawerState.Closed
  else { d with _anim_progress := clamp_progress v }

/-- `Animation(_anim_progress=target, duration=self.anim_time).start(self)`:
registers a fresh animation on the widget.  Kivy's `Animation.start` does
not cancel other animation instances already running on the widget. -/
def start_anim (d : NavigationDrawer) (target : ℚ) : NavigationDrawer :=
  { d with runningAnims := { target := target, duration := d.anim_time } :: d.runningAnims }

/-- The NavigationDrawerException message raised by `anim_to_state` for an
unrecognized state token. -/
def anim_err_msg : String := "Invalid state received, should be one of open or closed"

/-- `anim_to_state(state)`: starts an animation of `_anim_progress` to 1
for the token `open`, to 0 for `closed`, and raises
NavigationDrawerException for anything else. -/
def anim_to_state (d : NavigationDrawer) (st : String) : Except String NavigationDrawer :=
  if st = "open" then Except.ok (start_anim d 1)
  else if st = "closed" then Except.ok (start_anim d 0)
  else Except.error anim_err_msg

/-- Internal calls of `anim_to_state` always pass a literal valid token, so
the exception branch is unreachable there; on error the drawer is left
unchanged. -/
def run_anim_to_state (d : NavigationDrawer) (st : String) : NavigationDrawer :=
  match anim_to_state d st with
  | Except.ok d2 => d2
  | Except.error _ => d

/-- `_anim_relax`: animate to open when `_anim_progress` is strictly past
`min_dist_to_open`, else animate to closed. -/
def _anim_relax (d : NavigationDrawer) : NavigationDrawer :=
  if d._anim_progress > d.min_dist_to_open then run_anim_to_state d "open"
  else run_anim_to_state d "closed"

/-- `toggle_state(animate=True)`: from open go to closed and vice versa,
animating when `animate` and otherwise assigning the `state` property
directly (which jumps via the `on_state` observer). -/
def toggle_state (d : NavigationDrawer) (animate : Bool) : NavigationDrawer :=
  match d.state with
  | DrawerState.Open =>
      if animate then run_anim_to_state d "closed"
      else set_state_prop d DrawerState.Closed
  | DrawerState.Closed =>
      if animate then run_anim_to_state d "open"
      else set_state_prop d DrawerState.Open

/-- The three outcomes of `on_touch_down`: `grabbed` is the accepting path
(returns True after grabbing the touch); `passed` is the early bail-out
(returns None after delegating to the parent handler, taken when the touch
misses the widget or a session is already active); `rejected` is the
out-of-region path (returns False after delegating to the parent
handler). -/
inductive TouchResult where
| grabbed : TouchResult
| passed : TouchResult
| rejected : TouchResult
deriving DecidableEq

/-- `on_touch_down`: bail out (delegating to the parent class) when the
touch misses the widget or a touch is already being tracked; otherwise
compute the valid region from `_anim_progress` (the main panel's horizontal
bounds when progress > 0.001, the `touch_accept_width` strip from the left
edge otherwise); reject touches outside it; on acceptance cancel all
animations, snapshot the main panel's x into `_panel_init_x`, store the
touch with `touch.ud['type'] = self.state`, and grab it. -/
def on_touch_down (d : NavigationDrawer) (t : Touch) : NavigationDrawer × TouchResult :=
  if ¬ collide_point d t.x t.y ∨ d._touch ≠ none then (d, TouchResult.passed)
  else if ¬ (if d._anim_progress > 1/1000
             then main_panel_x d ≤ t.x ∧ t.x ≤ main_panel_x d + main_panel_width d
             else d.x ≤ t.x ∧ t.x ≤ d.x + d.touch_accept_width)
  then (d, TouchResult.rejected)
  else ({ d with runningAnims := [],
                 _panel_init_x := main_panel_x d,
                 _touch := some { touchId := t.uid, initState := d.state } },
        TouchResult.grabbed)

/-- The `touch is self._touch` identity test used by `on_touch_move` and
`on_touch_up`. -/
def is_session_touch (d : NavigationDrawer) (t : Touch) : Bool :=
  match d._touch with
  | some s => s.touchId = t.uid
  | none => false

/-- `on_touch_move`: for the tracked touch, `dx = touch.x - touch.ox` and
`_anim_progress = max(0, min((self._panel_init_x + dx) / self.side_panel_width, 1))`
(assigned through the property, hence through its observer); any other
touch is delegated to the parent handler and changes nothing. -/
def on_touch_move (d : NavigationDrawer) (t : Touch) : NavigationDrawer :=
  if is_session_touch d t then
    set_anim_progress d (max 0 (min ((d._panel_init_x + (t.x - t.ox)) / d.side_panel_width) 1))
  else d

/-- `on_touch_up`: for the tracked touch, clear `self._touch`, read back
the state snapshot from `touch.ud['type']`, ungrab, and decide: a session
that began open and sits at progress ≥ 0.975 animates back to closed;
otherwise `_anim_relax` applies the `min_dist_to_open` threshold.  Any
other touch is delegated to the parent handler and changes nothing. -/
def on_touch_up (d : NavigationDrawer) (t : Touch) : NavigationDrawer :=
  match d._touch with
  | some s =>
      if s.touchId = t.uid then
        let d1 : NavigationDrawer := { d with _touch := none }
        if s.initState = DrawerState.Open then
          if d1._anim_progress ≥ 975/1000 then run_anim_to_state d1 "closed"
          else _anim_relax d1
        else _anim_relax d1
      else d
  | none => d

/-- The region in which `on_touch_down` accepts a touch: within the
widget's own bounds (the dispatcher's `collide_point` guard) and, when the
drawer is essentially closed (progress ≤ 0.001), within the
`touch_accept_width` strip from the left edge, otherwise within the main
panel's current horizontal bounds. -/
def activation_region (d : NavigationDrawer) (t : Touch) : Prop :=
  collide_point d t.x t.y ∧
    (if d._anim_progress > 1/1000
     then main_panel_x d ≤ t.x ∧ t.x ≤ main_panel_x d + main_panel_width d
     else d.x ≤ t.x ∧ t.x ≤ d.x + d.touch_accept_width)

instance (d : NavigationDrawer) (t : Touch) : Decidable (activation_region d t) := by
  unfold activation_region
  infer_instance

/-- The state opposite to a given drawer state. -/
def opposite : DrawerState → DrawerState
  | DrawerState.Open => DrawerState.Closed
  | DrawerState.Closed => DrawerState.Open

/-- The string token naming a drawer state. -/
def stateToken : DrawerState → String
  | DrawerState.Open => "open"
  | DrawerState.Closed => "closed"

/-- Modelled from the spec: `setState(target, animate)` — when `animate`,
cancel any prior animation first, then run the timed interpolation of
progress toward 1 (Open) or 0 (Closed); when not `animate`, jump progress
to the target value immediately and set DrawerState synchronously. -/
def spec_setState (d : NavigationDrawer) (target : DrawerState) (animate : Bool) :
    NavigationDrawer :=
  if animate then
    run_anim_to_state { d with runningAnims := [] } (stateToken target)
  else
    { d with state := target,
             _anim_progress := if target = DrawerState.Open then 1 else 0 }

/-- The invariant relating the stored progress and drawer state: progress
lies in [0,1], and at either bound the state matches.  It holds for the
freshly constructed widget (progress 0, state closed). -/
def ProgressInv (d : NavigationDrawer) : Prop :=
  0 ≤ d._anim_progress ∧ d._anim_progress ≤ 1
  ∧ (d._anim_progress = 1 → d.state = DrawerState.Open)
  ∧ (d._anim_progress = 0 → d.state = DrawerState.Closed)

instance (d : NavigationDrawer) : Decidable (ProgressInv d) := by
  unfold ProgressInv
  infer_instance

/-- A freshly constructed drawer with concrete geometry: 800×600 at the
origin, the default `touch_accept_width` of 9dp, `min_dist_to_open` 0.7,
`anim_time` 0.3, progress 0, state closed, no active touch, no running
animation. -/
def init_drawer : NavigationDrawer :=
  { x := 0, y := 0, width := 800, height := 600,
    side_panel_width := 250, touch_accept_width := 9,
    min_dist_to_open := 7/10, anim_time := 3/10,
    _main_panel_final_offset := 0,
    _anim_progress := 0, _panel_init_x := 0,
    state := DrawerState.Closed, _touch := none, runningAnims := [] }

/-- The drawer fully open: progress 1, state open. -/
def open_drawer : NavigationDrawer :=
  { init_drawer with _anim_progress := 1, state := DrawerState.Open }

/-- A drawer mid-release: a session that started open is active at uid 7,
with the panel dragged back slightly to progress 0.98. -/
def dragged_drawer : NavigationDrawer :=
  { init_drawer with _anim_progress := 98/100, state := DrawerState.Open,
                     _touch := some { touchId := 7, initState := DrawerState.Open } }

/-- A drawer with one animation in flight and no active touch. -/
def animating_drawer : NavigationDrawer :=
  { init_drawer with runningAnims := [{ target := 1, duration := 3/10 }] }

/-- A touch at (5, 40): inside the widget and inside the 9-unit accept
strip of `init_drawer`. -/
def strip_touch : Touch := { x := 5, y := 40, ox := 5, oy := 40, uid := 3 }

/-- The touch with uid 7 matching the session of `dragged_drawer`, released
at (245, 300). -/
def release_touch : Touch := { x := 245, y := 300, ox := 250, oy := 300, uid := 7 }

/-- The widget-tree side of the drawer, for `add_widget` / `remove_widget` /
`set_side_panel` / `set_main_panel`: the drawer's direct children (the kv
rule installs three internal widgets there: the side BoxLayout, the main
BoxLayout and the join Image), the children lists of the two internal
panel containers, and the `side_panel` / `main_panel` ObjectProperties.
Widgets are identified by numeric ids. -/
structure WidgetState where
children : List Nat
sidePanelChildren : List Nat
mainPanelChildren : List Nat
side_panel : Option Nat
main_panel : Option Nat
deriving DecidableEq

/-- The NavigationDrawerException message raised when adding a third
content panel. -/
def add_err_msg : String := "Cannot add widgets directly to NavigationDrawer"

/-- The NavigationDrawerException message raised when removing a widget
that is neither panel. -/
def remove_err_msg : String := "Widget is neither the side or main panel, cannot remove it"

/-- The AttributeError raised inside `set_side_panel` / `set_main_panel`:
Kivy widgets define `add_widget`, `remove_widget` and `clear_widgets`, but
no `remove` method, so the clearing loop fails on its first child. -/
def attr_err_msg : String := "AttributeError: widget object has no attribute remove"

/-- Branch 4 of `add_widget`: place the widget inside the internal side
container and bind the `side_panel` property to it. -/
def attach_side (w : WidgetState) (g : Nat) : WidgetState :=
  { w with sidePanelChildren := g :: w.sidePanelChildren, side_panel := some g }

/-- Branch 5 of `add_widget`: place the widget inside the internal main
container and bind the `main_panel` property to it. -/
def attach_main (w : WidgetState) (g : Nat) : WidgetState :=
  { w with mainPanelChildren := g :: w.mainPanelChildren, main_panel := some g }

/-- `add_widget`: the first three adds (performed by the kv rule during
construction) become the internal side panel, main panel and join image
children; after that, a widget is routed into the side container while
`side_panel` is unbound, then into the main container while `main_panel`
is unbound, and any further add raises NavigationDrawerException. -/
def add_widget (w : WidgetState) (g : Nat) : Except String WidgetState :=
  if w.children.length = 0 then Except.ok { w with children := g :: w.children }
  else if w.children.length = 1 then Except.ok { w with children := g :: w.children }
  else if w.children.length = 2 then Except.ok { w with children := g :: w.children }
  else if w.side_panel = none then Except.ok (attach_side w g)
  else if w.main_panel = none then Except.ok (attach_main w g)
  else Except.error add_err_msg

/-- `remove_widget`: a widget identical to the bound side (resp. main)
panel is removed from its container and the property reset to None; any
other widget raises NavigationDrawerException. -/
def remove_widget (w : WidgetState) (g : Nat) : Except String WidgetState :=
  if w.side_panel = some g then
    Except.ok { w with sidePanelChildren := w.sidePanelChildren.erase g, side_panel := none }
  else if w.main_panel = some g then
    Except.ok { w with mainPanelChildren := w.mainPanelChildren.erase g, main_panel := none }
  else Except.error remove_err_msg

/-- `set_side_panel`: when the internal side container already has
children, the clearing loop calls `self._side_panel.remove(child)`; Kivy
widgets have no `remove` attribute, so this raises AttributeError before
the new widget is attached.  Only with an empty container does the call
reach `add_widget` and bind `side_panel`. -/
def set_side_panel (w : WidgetState) (g : Nat) : Except String WidgetState :=
  if 0 < w.sidePanelChildren.length then Except.error attr_err_msg
  else Except.ok { w with sidePanelChildren := g :: w.sidePanelChildren, side_panel := some g }

/-- `set_main_panel`: same shape as `set_side_panel`, on the main
container. -/
def set_main_panel (w : WidgetState) (g : Nat) : Except String WidgetState :=
  if 0 < w.mainPanelChildren.length then Except.error attr_err_msg
  else Except.ok { w with mainPanelChildren := g :: w.mainPanelChildren, main_panel := some g }

/-- A freshly constructed drawer's widget tree: the three internal
children (ids 0, 1, 2) installed by the kv rule, both panel slots
unbound. -/
def bare_widget_tree : WidgetState :=
  { children := [2, 1, 0], sidePanelChildren := [], mainPanelChildren := [],
    side_panel := none, main_panel := none }

/-- `clamp_progress` agrees with the clamp to [0,1]. -/
theorem clamp_progress_eq (v : ℚ) : clamp_progress v = max 0 (min v 1) := by
  unfold clamp_progress
  split_ifs with hgt hlt
  · rw [min_eq_right (le_of_lt hgt), max_eq_right zero_le_one]
  · rw [min_eq_left (by linarith), max_eq_left (le_of_lt hlt)]
  · rw [min_eq_left (not_lt.mp hgt), max_eq_right (not_lt.mp hlt)]

/-- Writing an already-clamped value through the `_anim_progress` property
stores exactly that value (the observer's clamp and state updates never
move an in-range value). -/
theorem set_anim_progress_progress (d : NavigationDrawer) (v : ℚ)
    (h0 : 0 ≤ v) (h1 : v ≤ 1) : (set_anim_progress d v)._anim_progress = v := by
  have hcv : clamp_progress v = v := by
    rw [clamp_progress_eq, min_eq_left h1, max_eq_right h0]
  unfold set_anim_progress
  rw [hcv]
  split_ifs with heq hge hle
  · exact heq.symm
  · have hv1 : v = 1 := le_antisymm h1 hge
    subst hv1
    by_cases hs : d.state = DrawerState.Open <;>
      simp [set_state_prop, on_state_handler, hs]
  · have hv0 : v = 0 := le_antisymm hle h0
    subst hv0
    by_cases hs : d.state = DrawerState.Closed <;>
      simp [set_state_prop, on_state_handler, hs]
  · rfl

/-- Claim C4: a pointer-move whose touch matches the active session sets
progress to clamp((panel-init-x + dx) / side-panel-width, 0, 1) with
dx = touch.x - touch.ox, a direct positional mapping; a pointer-move whose
touch does not match the session leaves progress unchanged. -/
theorem touch_move_progress (d : NavigationDrawer) (t : Touch) :
    (on_touch_move d t)._anim_progress =
      if is_session_touch d t then
        max 0 (min ((d._panel_init_x + (t.x - t.ox)) / d.side_panel_width) 1)
      else d._anim_progress := by
  unfold on_touch_move
  split_ifs with h
  · exact set_anim_progress_progress d _ (le_max_left 0 _)
      (max_le zero_le_one (min_le_right _ 1))
  · rfl

/-- Claim C6: a pointer-down arriving while a gesture session is active is
rejected (not accepted, delegated to the parent handler) and leaves the
whole drawer state, including the stored touch, the panel snapshot,
progress and drawer state, unchanged. -/
theorem touch_down_session_exclusive (d : NavigationDrawer) (t : Touch)
    (h : d._touch ≠ none) :
    on_touch_down d t = (d, TouchResult.passed) := by
  unfold on_touch_down
  rw [if_pos (Or.inr h)]

/-- Witness for C6: the drawer with an active session at uid 7 passes a
new touch through untouched. -/
theorem touch_down_session_exclusive_witness :
    on_touch_down dragged_drawer strip_touch = (dragged_drawer, TouchResult.passed) :=
  touch_down_session_exclusive dragged_drawer strip_touch
    (by simp [dragged_drawer, init_drawer])

/-- Claim C7: `anim_to_state` with a token other than `open` or `closed`
raises NavigationDrawerException before touching anything, so the drawer
(progress and state included) is unchanged; the two valid tokens never
raise and just start the corresponding animation. -/
theorem anim_to_state_invalid (d : NavigationDrawer) (st : String)
    (h1 : st ≠ "open") (h2 : st ≠ "closed") :
    anim_to_state d st = Except.error anim_err_msg
    ∧ run_anim_to_state d st = d
    ∧ anim_to_state d "open" = Except.ok (start_anim d 1)
    ∧ anim_to_state d "closed" = Except.ok (start_anim d 0) := by
  refine ⟨?_, ?_, ?_, ?_⟩ <;> simp [anim_to_state, run_anim_to_state, h1, h2]

/-- Witness for C7: the token `jump` is rejected on the concrete initial
drawer, which is returned unchanged; `open` and `closed` succeed. -/
theorem anim_to_state_invalid_witness :
    anim_to_state init_drawer "jump" = Except.error anim_err_msg
    ∧ run_anim_to_state init_drawer "jump" = init_drawer
    ∧ anim_to_state init_drawer "open" = Except.ok (start_anim init_drawer 1)
    ∧ anim_to_state init_drawer "closed" = Except.ok (start_anim init_drawer 0) :=
  anim_to_state_invalid init_drawer "jump" (by simp) (by simp)

/-- Claim C10: `set_side_panel` (resp. `set_main_panel`) raises before
attaching the new widget whenever the corresponding internal container
already has a child, because the clearing loop calls the nonexistent
`remove` method; the documented replace behaviour succeeds only on an
empty container. -/
theorem set_panel_nonempty_error (w : WidgetState) (g : Nat) :
    set_side_panel w g =
      (if w.sidePanelChildren = [] then
        Except.ok { w with sidePanelChildren := [g], side_panel := some g }
      else Except.error attr_err_msg)
    ∧ set_main_panel w g =
      (if w.mainPanelChildren = [] then
        Except.ok { w with mainPanelChildren := [g], main_panel := some g }
      else Except.error attr_err_msg) := by
  constructor
  · by_cases hsp : w.sidePanelChildren = []
    · simp [set_side_panel, hsp]
    · simp [set_side_panel, hsp, List.length_pos.mpr hsp]
  · by_cases hmp : w.mainPanelChildren = []
    · simp [set_main_panel, hmp]
    · simp [set_main_panel, hmp, List.length_pos.mpr hmp]

/-- Claim C1: a touch-up matching the active session ends the session and
starts exactly one animation, whose target is closed (0) when the session
began open and progress sits at 0.975 or above, otherwise open (1) when
progress is strictly past `min_dist_to_open`, otherwise closed (0). -/
theorem release_relax_decision (d : NavigationDrawer) (t : Touch) (s : GestureSession)
    (h : d._touch = some s) (hid : s.touchId = t.uid) :
    (on_touch_up d t)._touch = none
    ∧ (on_touch_up d t).runningAnims =
        { target := if s.initState = DrawerState.Open ∧ d._anim_progress ≥ 975/1000 then (0:ℚ)
                    else if d._anim_progress > d.min_dist_to_open then 1 else 0,
          duration := d.anim_time } :: d.runningAnims := by
  unfold on_touch_up
  rw [h]
  simp only [if_pos hid]
  by_cases hop : s.initState = DrawerState.Open
  · by_cases hhi : d._anim_progress ≥ 975/1000
    · simp [hop, hhi, run_anim_to_state, anim_to_state, start_anim]
    · by_cases hmid : d._anim_progress > d.min_dist_to_open <;>
        simp [hop, hhi, hmid, _anim_relax, run_anim_to_state, anim_to_state, start_anim]
  · by_cases hmid : d._anim_progress > d.min_dist_to_open <;>
      simp [hop, hmid, _anim_relax, run_anim_to_state, anim_to_state, start_anim]

/-- Witness for C1: releasing the session that began open at progress 0.98
(which exceeds the 0.7 threshold) nevertheless animates back to closed. -/
theorem release_relax_decision_witness :
    (on_touch_up dragged_drawer release_touch)._touch = none
    ∧ (on_touch_up dragged_drawer release_touch).runningAnims =
        [{ target := 0, duration := 3/10 }] := by
  have h := release_relax_decision dragged_drawer release_touch
    { touchId := 7, initState := DrawerState.Open } rfl rfl
  refine ⟨h.1, ?_⟩
  rw [h.2]
  norm_num [dragged_drawer, init_drawer]

/-- Claim C2 counterexample: the low-side state update in the progress
observer carries no epsilon.  With the code's only small epsilon, 0.001,
writing progress 0.0005 (inside (0, epsilon]) to the open drawer leaves the
state Open; the claimed epsilon band does not switch the state to Closed. -/
theorem progress_low_epsilon_counterexample :
    0 < (1:ℚ)/2000 ∧ (1:ℚ)/2000 ≤ 1/1000
    ∧ (set_anim_progress open_drawer (1/2000)).state = DrawerState.Open := by
  refine ⟨by norm_num, by norm_num, ?_⟩
  norm_num [set_anim_progress, clamp_progress, open_drawer, init_drawer]

/-- Any progress write with 1 ≤ v leaves the drawer open, given that an
in-range stored progress at 1 already means open. -/
theorem set_anim_progress_state_high (d : NavigationDrawer) (v : ℚ)
    (h1 : d._anim_progress ≤ 1) (hopen : d._anim_progress = 1 → d.state = DrawerState.Open)
    (hv : 1 ≤ v) : (set_anim_progress d v).state = DrawerState.Open := by
  have hcv : clamp_progress v = 1 := by
    rw [clamp_progress_eq, min_eq_right hv, max_eq_right zero_le_one]
  unfold set_anim_progress
  rw [hcv]
  split_ifs with heq hge hle
  · exact hopen (le_antisymm h1 (heq ▸ hv))
  · by_cases hs : d.state = DrawerState.Open <;>
      simp [set_state_prop, on_state_handler, hs]
  · exact absurd (le_refl (1:ℚ)) hge
  · exact absurd (le_refl (1:ℚ)) hge

/-- Any progress write with v ≤ 0 closes the drawer, given that an
in-range stored progress at 0 already means closed. -/
theorem set_anim_progress_state_low (d : NavigationDrawer) (v : ℚ)
    (h0 : 0 ≤ d._anim_progress) (hclosed : d._anim_progress = 0 → d.state = DrawerState.Closed)
    (hv : v ≤ 0) : (set_anim_progress d v).state = DrawerState.Closed := by
  have hcv : clamp_progress v = 0 := by
    rw [clamp_progress_eq, min_eq_left (le_trans hv zero_le_one), max_eq_left hv]
  unfold set_anim_progress
  rw [hcv]
  split_ifs with heq hge hle
  · exact hclosed (le_antisymm (heq ▸ hv) h0)
  · exact absurd hge (by norm_num)
  · by_cases hs : d.state = DrawerState.Closed <;>
      simp [set_state_prop, on_state_handler, hs]
  · exact absurd (le_refl (0:ℚ)) hle

/-- A strictly interior progress write leaves the drawer state alone. -/
theorem set_anim_progress_state_mid (d : NavigationDrawer) (v : ℚ)
    (hv0 : 0 < v) (hv1 : v < 1) : (set_anim_progress d v).state = d.state := by
  have hcv : clamp_progress v = v := by
    rw [clamp_progress_eq, min_eq_left (le_of_lt hv1), max_eq_right (le_of_lt hv0)]
  unfold set_anim_progress
  rw [hcv]
  split_ifs with heq hge hle
  · rfl
  · exact absurd hge (not_le.mpr hv1)
  · exact absurd hle (not_le.mpr hv0)
  · rfl

/-- The clamp equation for an arbitrary progress write, given an in-range
stored progress. -/
theorem set_anim_progress_clamp (d : NavigationDrawer) (v : ℚ)
    (h0 : 0 ≤ d._anim_progress) (h1 : d._anim_progress ≤ 1) :
    (set_anim_progress d v)._anim_progress = max 0 (min v 1) := by
  unfold set_anim_progress
  rw [clamp_progress_eq]
  split_ifs with heq hge hle
  · rw [← heq] at h0 h1
    rw [min_eq_left h1, max_eq_right h0, heq]
  · have hm : max 0 (min v 1) = 1 :=
      le_antisymm (max_le zero_le_one (min_le_right v 1)) hge
    by_cases hs : d.state = DrawerState.Open <;>
      simp [set_state_prop, on_state_handler, hs, hm]
  · have hm : max 0 (min v 1) = 0 :=
      le_antisymm hle (le_max_left 0 (min v 1))
    by_cases hs : d.state = DrawerState.Closed <;>
      simp [set_state_prop, on_state_handler, hs, hm]
  · rfl

/-- Claim C2 (amended): every write to the progress property stores the
value clamped to [0,1]; a written value at or past 1 flips the state to
Open, one at or below 0 flips it to Closed — the low-side comparison being
exact, with no epsilon, so a strictly interior value never moves the
state. -/
theorem progress_clamp_state_thresholds (d : NavigationDrawer) (v : ℚ)
    (h : ProgressInv d) :
    (set_anim_progress d v)._anim_progress = max 0 (min v 1)
    ∧ 0 ≤ (set_anim_progress d v)._anim_progress
    ∧ (set_anim_progress d v)._anim_progress ≤ 1
    ∧ (1 ≤ v → (set_anim_progress d v).state = DrawerState.Open)
    ∧ (v ≤ 0 → (set_anim_progress d v).state = DrawerState.Closed)
    ∧ (0 < v → v < 1 → (set_anim_progress d v).state = d.state) := by
  obtain ⟨h0, h1, hopen, hclosed⟩ := h
  have hc := set_anim_progress_clamp d v h0 h1
  refine ⟨hc, ?_, ?_, ?_, ?_, ?_⟩
  · rw [hc]; exact le_max_left 0 _
  · rw [hc]; exact max_le zero_le_one (min_le_right v 1)
  · exact set_anim_progress_state_high d v h1 hopen
  · exact set_anim_progress_state_low d v h0 hclosed
  · exact set_anim_progress_state_mid d v

/-- Witness for C2: writing 2 to the closed initial drawer stores the
clamped progress 1 and flips the state to Open. -/
theorem progress_clamp_state_thresholds_witness :
    (set_anim_progress init_drawer 2)._anim_progress = 1
    ∧ (set_anim_progress init_drawer 2).state = DrawerState.Open := by
  have h := progress_clamp_state_thresholds init_drawer 2
    (by norm_num [ProgressInv, init_drawer])
  refine ⟨?_, h.2.2.2.1 (by norm_num)⟩
  rw [h.1]
  norm_num

/-- Claim C3: a pointer-down is accepted exactly when no session is active
and the position lies in the activation region (within the widget, and
within the 9dp strip when essentially closed, within the main panel's
horizontal bounds otherwise); acceptance cancels animations, snapshots the
main panel x and the drawer state, and stores the touch; any other
pointer-down leaves the drawer unchanged and is delegated to normal
routing. -/
theorem touch_down_acceptance (d : NavigationDrawer) (t : Touch) :
    on_touch_down d t =
      if d._touch = none ∧ activation_region d t then
        ({ d with runningAnims := [], _panel_init_x := main_panel_x d,
                  _touch := some { touchId := t.uid, initState := d.state } },
         TouchResult.grabbed)
      else (d, if d._touch ≠ none ∨ ¬ collide_point d t.x t.y
               then TouchResult.passed else TouchResult.rejected) := by
  by_cases hc : collide_point d t.x t.y <;>
    by_cases ht : d._touch = none <;>
      by_cases hr : (if d._anim_progress > 1/1000
                     then main_panel_x d ≤ t.x ∧ t.x ≤ main_panel_x d + main_panel_width d
                     else d.x ≤ t.x ∧ t.x ≤ d.x + d.touch_accept_width) <;>
    simp [on_touch_down, activation_region, hc, ht, hr]

/-- Claim C5 counterexample: `anim_to_state` does not cancel the animation
already in flight — two consecutive calls on the freshly constructed
drawer leave two animations concurrently registered against progress. -/
theorem double_animation_counterexample :
    (run_anim_to_state (run_anim_to_state init_drawer "open") "closed").runningAnims.length
      = 2 := by
  simp [run_anim_to_state, anim_to_state, start_anim, init_drawer]

/-- Claim C5 (amended): an accepted pointer-down and a state change each
cancel every in-flight animation, but `anim_to_state` does not cancel: it
pushes a new animation on top of whatever is already running, so repeated
`anim_to_state` calls can leave several animations targeting progress. -/
theorem animation_cancellation_amended (d : NavigationDrawer) (t : Touch) (s : DrawerState) :
    ((on_touch_down d t).2 = TouchResult.grabbed → (on_touch_down d t).1.runningAnims = [])
    ∧ (d.state ≠ s → (set_state_prop d s).runningAnims = [])
    ∧ (run_anim_to_state d "open").runningAnims
        = { target := (1:ℚ), duration := d.anim_time } :: d.runningAnims
    ∧ (run_anim_to_state d "closed").runningAnims
        = { target := (0:ℚ), duration := d.anim_time } :: d.runningAnims := by
  refine ⟨?_, ?_, ?_, ?_⟩
  · intro hg
    unfold on_touch_down at hg ⊢
    split_ifs at hg ⊢ <;> simp_all
  · intro hne
    simp [set_state_prop, hne, on_state_handler]
  · simp [run_anim_to_state, anim_to_state, start_anim]
  · simp [run_anim_to_state, anim_to_state, start_anim]

/-- Witness for C5 (amended): on the drawer with one running animation, an
accepted edge touch clears the animation list, a state change clears it,
and `anim_to_state` stacks a second animation on top of the first. -/
theorem animation_cancellation_amended_witness :
    (on_touch_down animating_drawer strip_touch).1.runningAnims = []
    ∧ (set_state_prop animating_drawer DrawerState.Open).runningAnims = []
    ∧ (run_anim_to_state animating_drawer "open").runningAnims
        = [{ target := 1, duration := 3/10 }, { target := 1, duration := 3/10 }] := by
  have h := animation_cancellation_amended animating_drawer strip_touch DrawerState.Open
  refine ⟨h.1 ?_, h.2.1 ?_, ?_⟩
  · norm_num [on_touch_down, collide_point, main_panel_x, main_panel_width,
      animating_drawer, init_drawer, strip_touch]
  · simp [animating_drawer, init_drawer]
  · have h3 := h.2.2.1
    rw [h3]
    norm_num [animating_drawer, init_drawer]

/-- Claim C8: on the constructed widget tree (three internal children,
both panel slots unbound), the first direct attachment becomes the side
panel, the second becomes the main panel, a third raises
NavigationDrawerException, and removing a widget that is neither bound
panel raises NavigationDrawerException. -/
theorem two_panel_composition (w : WidgetState) (g1 g2 g3 g4 : Nat)
    (h3 : 3 ≤ w.children.length)
    (hs : w.side_panel = none) (hm : w.main_panel = none)
    (h4 : g4 ≠ g1) (h5 : g4 ≠ g2) :
    add_widget w g1 = Except.ok (attach_side w g1)
    ∧ (attach_side w g1).side_panel = some g1
    ∧ (attach_side w g1).main_panel = none
    ∧ add_widget (attach_side w g1) g2 = Except.ok (attach_main (attach_side w g1) g2)
    ∧ (attach_main (attach_side w g1) g2).side_panel = some g1
    ∧ (attach_main (attach_side w g1) g2).main_panel = some g2
    ∧ add_widget (attach_main (attach_side w g1) g2) g3 = Except.error add_err_msg
    ∧ remove_widget (attach_main (attach_side w g1) g2) g4 = Except.error remove_err_msg := by
  have h0 : w.children.length ≠ 0 := by omega
  have h1 : w.children.length ≠ 1 := by omega
  have h2 : w.children.length ≠ 2 := by omega
  refine ⟨?_, ?_, ?_, ?_, ?_, ?_, ?_, ?_⟩ <;>
    simp [add_widget, remove_widget, attach_side, attach_main,
      h0, h1, h2, hs, hm, Ne.symm h4, Ne.symm h5]

/-- Witness for C8: the concrete constructed tree accepts widgets 10 and
11 as side and main panel, rejects widget 12, and rejects removing the
unattached widget 13. -/
theorem two_panel_composition_witness :
    add_widget bare_widget_tree 10 = Except.ok (attach_side bare_widget_tree 10)
    ∧ (attach_side bare_widget_tree 10).side_panel = some 10
    ∧ (attach_side bare_widget_tree 10).main_panel = none
    ∧ add_widget (attach_side bare_widget_tree 10) 11
        = Except.ok (attach_main (attach_side bare_widget_tree 10) 11)
    ∧ (attach_main (attach_side bare_widget_tree 10) 11).side_panel = some 10
    ∧ (attach_main (attach_side bare_widget_tree 10) 11).main_panel = some 11
    ∧ add_widget (attach_main (attach_side bare_widget_tree 10) 11) 12
        = Except.error add_err_msg
    ∧ remove_widget (attach_main (attach_side bare_widget_tree 10) 11) 13
        = Except.error remove_err_msg :=
  two_panel_composition bare_widget_tree 10 11 12 13
    (by simp [bare_widget_tree]) rfl rfl (by simp) (by simp)

/-- Claim C9 counterexample: on the drawer with an animation in flight,
the animated toggle stacks a second animation on top of the running one,
while the spec's `setState` cancels any prior animation first and so
leaves exactly one — the two disagree at this concrete input. -/
theorem toggle_setState_counterexample :
    toggle_state animating_drawer true
      ≠ spec_setState animating_drawer (opposite animating_drawer.state) true := by
  intro h
  have h2 := congrArg (fun d => d.runningAnims.length) h
  simp [toggle_state, spec_setState, opposite, stateToken, run_anim_to_state,
    anim_to_state, start_anim, animating_drawer, init_drawer] at h2

/-- Claim C9 (amended): on a drawer with no animation in flight,
`toggle_state animate` behaves exactly as the spec's `setState` applied to
the opposite of the current state with the same animate flag (with an
animation running the two differ, because toggle's animated path omits the
cancel-first step); in particular a non-animated toggle from closed
synchronously opens the drawer, jumps progress to 1 and starts no
animation. -/
theorem toggle_setState_equiv_amended (d : NavigationDrawer) (animate : Bool) :
    (d.runningAnims = [] →
      toggle_state d animate = spec_setState d (opposite d.state) animate)
    ∧ (d.state = DrawerState.Closed → animate = false →
        (toggle_state d animate).state = DrawerState.Open
        ∧ (toggle_state d animate)._anim_progress = 1
        ∧ (toggle_state d animate).runningAnims = []) := by
  constructor
  · intro hno
    cases hds : d.state <;> cases animate <;>
      simp [toggle_state, spec_setState, opposite, stateToken, set_state_prop,
        on_state_handler, run_anim_to_state, anim_to_state, start_anim, hds, hno]
  · intro hclosed hanim
    subst hanim
    rw [show toggle_state d false = set_state_prop d DrawerState.Open by
      simp [toggle_state, hclosed]]
    simp [set_state_prop, hclosed, on_state_handler]

/-- Witness for C9 (amended): the concrete closed drawer has no running
animation, toggling it without animation agrees with the spec's `setState`
to Open and synchronously opens it with progress 1 and no animation. -/
theorem toggle_setState_equiv_amended_witness :
    toggle_state init_drawer false
      = spec_setState init_drawer (opposite init_drawer.state) false
    ∧ (toggle_state init_drawer false).state = DrawerState.Open
    ∧ (toggle_state init_drawer false)._anim_progress = 1
    ∧ (toggle_state init_drawer false).runningAnims = [] := by
  have h := toggle_setState_equiv_amended init_drawer false
  exact ⟨h.1 rfl, h.2 rfl rfl⟩

end NavDrawer
